import Mathlib

/-!
Shallow embedding of the building heating-load engine of this repository.

Two sibling engines exist in the source:
* `src/lib/heatingLoad.ts` — embedded below in namespace `HeatingLoad`;
* the client-side fallback engine at the bottom of
  `src/lib/api/heatingLoadAPI.ts` — embedded in namespace `HeatingLoadAPI`.

JavaScript floating-point numbers are modelled as real numbers; `Math.max`,
`Math.cos`, `Math.sin`, `Math.asin` and `**` become `max`, `Real.cos`,
`Real.sin`, `Real.arcsin` and (real) powers.  A JavaScript `Date` is modelled
by its epoch-milliseconds value; the ambient clock read by `new Date()`
becomes an explicit parameter (the midnight of the call day), so that the
effect of calling the function at different times is expressible.
-/

noncomputable section

namespace HeatingLoad

/-- `BuildingParams` from src/lib/heatingLoad.ts. -/
structure BuildingParams where
  wallArea : ℝ
  wallUValue : ℝ
  roofArea : ℝ
  roofUValue : ℝ
  floorArea : ℝ
  floorUValue : ℝ
  windowArea : ℝ
  windowUValue : ℝ
  shgc : ℝ
  ventilationRate : ℝ
  buildingVolume : ℝ
  indoorTemp : ℝ

/-- `ClimateData` from src/lib/heatingLoad.ts; `timestamp : Date` is modelled
as epoch milliseconds. -/
structure ClimateData where
  latitude : ℝ
  longitude : ℝ
  temperature : ℝ
  solarRadiation : ℝ
  timestamp : ℤ

/-- `HourlyResult` from src/lib/heatingLoad.ts. -/
structure HourlyResult where
  hour : ℕ
  conductiveLoss : ℝ
  ventilationLoss : ℝ
  solarGain : ℝ
  longwaveRadiation : ℝ
  netLoad : ℝ
  outdoorTemp : ℝ
  solarRadiation : ℝ

/-- `SimulationResult` from src/lib/heatingLoad.ts. -/
structure SimulationResult where
  hourlyResults : List HourlyResult
  totalHeatingLoad : ℝ
  peakLoad : ℝ
  averageLoad : ℝ

def AIR_DENSITY : ℝ := 1.2

def AIR_SPECIFIC_HEAT : ℝ := 1005

def STEFAN_BOLTZMANN : ℝ := 5.67e-8

def GROUND_EMISSIVITY : ℝ := 0.9

def SKY_EMISSIVITY : ℝ := 0.8

/-- `calculateConductiveLoss` from src/lib/heatingLoad.ts. -/
def calculateConductiveLoss (params : BuildingParams) (outdoorTemp : ℝ) : ℝ :=
  let tempDiff := params.indoorTemp - outdoorTemp
  let wallLoss := params.wallArea * params.wallUValue * tempDiff
  let roofLoss := params.roofArea * params.roofUValue * tempDiff
  let floorLoss := params.floorArea * params.floorUValue * tempDiff
  let windowLoss := params.windowArea * params.windowUValue * tempDiff
  wallLoss + roofLoss + floorLoss + windowLoss

/-- `calculateVentilationLoss` from src/lib/heatingLoad.ts. -/
def calculateVentilationLoss (params : BuildingParams) (outdoorTemp : ℝ) : ℝ :=
  let tempDiff := params.indoorTemp - outdoorTemp
  let airFlowRate := params.ventilationRate * params.buildingVolume / 3600
  let massFlowRate := airFlowRate * AIR_DENSITY
  massFlowRate * AIR_SPECIFIC_HEAT * tempDiff

/-- `calculateSolarGain` from src/lib/heatingLoad.ts. -/
def calculateSolarGain (params : BuildingParams) (solarRadiation : ℝ) : ℝ :=
  params.windowArea * params.shgc * solarRadiation

/-- `calculateLongwaveRadiation` from src/lib/heatingLoad.ts. -/
def calculateLongwaveRadiation (params : BuildingParams) (outdoorTemp : ℝ) : ℝ :=
  let indoorTempK := params.indoorTemp + 273.15
  let outdoorTempK := outdoorTemp + 273.15
  let skyTempK := outdoorTempK - 10
  params.windowArea * GROUND_EMISSIVITY * STEFAN_BOLTZMANN *
    (indoorTempK ^ 4 - skyTempK ^ 4)

/-- Return type of `steadyStateAnalysis`. -/
structure SteadyStateResult where
  conductiveLoss : ℝ
  ventilationLoss : ℝ
  solarGain : ℝ
  longwaveRadiation : ℝ
  netLoad : ℝ

/-- `steadyStateAnalysis` from src/lib/heatingLoad.ts. -/
def steadyStateAnalysis (params : BuildingParams) (climateData : ClimateData) :
    SteadyStateResult :=
  let conductiveLoss := calculateConductiveLoss params climateData.temperature
  let ventilationLoss := calculateVentilationLoss params climateData.temperature
  let solarGain := calculateSolarGain params climateData.solarRadiation
  let longwaveRadiation := calculateLongwaveRadiation params climateData.temperature
  { conductiveLoss := conductiveLoss
    ventilationLoss := ventilationLoss
    solarGain := solarGain
    longwaveRadiation := longwaveRadiation
    netLoad := conductiveLoss + ventilationLoss - solarGain + longwaveRadiation }

/-- The diurnal temperature variation term of `generateHourlyClimateData`
(src/lib/heatingLoad.ts line 166): `-3 * Math.cos((hour - 14) * Math.PI / 12)`. -/
def tempVariationAt (hour : ℕ) : ℝ :=
  -3 * Real.cos (((hour : ℝ) - 14) * Real.pi / 12)

/-- The solar radiation term of `generateHourlyClimateData`
(src/lib/heatingLoad.ts lines 170-174). -/
def solarRadiationAt (hour : ℕ) : ℝ :=
  if 6 ≤ hour ∧ hour ≤ 18 then
    800 * max 0 (Real.sin (((hour : ℝ) - 6) * Real.pi / 12))
  else 0

/-- One hour in milliseconds (`setHours` steps on a `Date`). -/
def HOUR_MS : ℤ := 3600000

/-- `generateHourlyClimateData` from src/lib/heatingLoad.ts.  The function
reads the ambient clock (`new Date()` truncated to midnight); that midnight
is the explicit parameter `todayMidnightMs`. -/
def generateHourlyClimateData (latitude longitude baseTemp : ℝ)
    (todayMidnightMs : ℤ) : List ClimateData :=
  (List.range 24).map fun hour =>
    { latitude := latitude
      longitude := longitude
      temperature := baseTemp + tempVariationAt hour
      solarRadiation := solarRadiationAt hour
      timestamp := todayMidnightMs + (hour : ℤ) * HOUR_MS }

/-- The `HourlyResult` assembled for loop index `i` and climate record `data`
inside `runHourlySimulation` (src/lib/heatingLoad.ts lines 199-214). -/
def mkHourlyResult (params : BuildingParams) (i : ℕ) (data : ClimateData) :
    HourlyResult :=
  let analysis := steadyStateAnalysis params data
  { hour := i
    conductiveLoss := analysis.conductiveLoss
    ventilationLoss := analysis.ventilationLoss
    solarGain := analysis.solarGain
    longwaveRadiation := analysis.longwaveRadiation
    netLoad := max 0 analysis.netLoad
    outdoorTemp := data.temperature
    solarRadiation := data.solarRadiation }

/-- `runHourlySimulation` from src/lib/heatingLoad.ts.  The loop accumulators
`totalEnergyWh` and `peakLoad` (initial value 0) are expressed as a sum and a
left fold of `max` over the reported hourly net loads. -/
def runHourlySimulation (params : BuildingParams)
    (climateData : List ClimateData) : SimulationResult :=
  let hourlyResults := climateData.enum.map fun x => mkHourlyResult params x.1 x.2
  let totalEnergyWh := (hourlyResults.map HourlyResult.netLoad).sum
  { hourlyResults := hourlyResults
    totalHeatingLoad := totalEnergyWh / 1000
    peakLoad := (hourlyResults.map HourlyResult.netLoad).foldl max 0
    averageLoad := totalEnergyWh / (climateData.length : ℝ) }

/-- The latitude-, longitude-, temperature- and irradiance- (i.e. everything
but the timestamp) part of a `ClimateData` record. -/
def stripTimestamp (d : ClimateData) : ℝ × ℝ × ℝ × ℝ :=
  (d.latitude, d.longitude, d.temperature, d.solarRadiation)

end HeatingLoad

namespace HeatingLoadAPI

/-- `HourlyClimateData` from the fallback engine in
src/lib/api/heatingLoadAPI.ts. -/
structure HourlyClimateData where
  hour : ℕ
  outdoorTemp : ℝ
  solarRadiation : ℝ
  skyTemp : ℝ
  solarElevationDeg : ℝ

/-- `getDeclination` from src/lib/api/heatingLoadAPI.ts:
`23.45 * Math.sin(((360 / 365) * (284 + dayOfYear)) * (Math.PI / 180))`. -/
def getDeclination (dayOfYear : ℕ) : ℝ :=
  23.45 * Real.sin ((360 / 365 * (284 + (dayOfYear : ℝ))) * (Real.pi / 180))

/-- `getHourAngle` from src/lib/api/heatingLoadAPI.ts: `(hour - 12) * 15`. -/
def getHourAngle (hour : ℕ) : ℝ :=
  ((hour : ℝ) - 12) * 15

/-- `getSolarElevation` from src/lib/api/heatingLoadAPI.ts:
elevation (radians) clipped at 0 via `Math.max(0, Math.asin(sinElev))`. -/
def getSolarElevation (lat decl hourAngle : ℝ) : ℝ :=
  let latRad := lat * Real.pi / 180
  let declRad := decl * Real.pi / 180
  let hrRad := hourAngle * Real.pi / 180
  let sinElev := Real.sin latRad * Real.sin declRad +
    Real.cos latRad * Real.cos declRad * Real.cos hrRad
  max 0 (Real.arcsin sinElev)

/-- `getSolarRadiation` from src/lib/api/heatingLoadAPI.ts: guard
`if (solarElevation <= 0) return 0`, air mass `1 / sin`, transmittance
`0.7 ** (airMass ** 0.678)`, `GHI = 1367 * transmittance * sin`, clipped by
`Math.max(0, GHI)`. -/
def getSolarRadiation (solarElevation : ℝ) : ℝ :=
  if solarElevation ≤ 0 then 0
  else
    let airMass := 1 / Real.sin solarElevation
    let transmittance := (0.7 : ℝ) ^ (airMass ^ (0.678 : ℝ))
    let DNI := 1367 * transmittance
    let GHI := DNI * Real.sin solarElevation
    max 0 GHI

/-- `getOutdoorTemp` from src/lib/api/heatingLoadAPI.ts. -/
def getOutdoorTemp (hour : ℕ) (latitude : ℝ) : ℝ :=
  let baseTemp := -5 - |latitude - 37| * 0.7
  baseTemp + 6 * Real.sin (((hour : ℝ) - 8) / 24 * (2 * Real.pi))

/-- `getSkyTemp` from src/lib/api/heatingLoadAPI.ts. -/
def getSkyTemp (outdoorTemp : ℝ) : ℝ :=
  outdoorTemp - 6

/-- `generateHourlyClimateData` from src/lib/api/heatingLoadAPI.ts
(`dayOfYear` is fixed to 15 inside the function). -/
def generateHourlyClimateData (latitude longitude : ℝ) :
    List HourlyClimateData :=
  let dayOfYear := 15
  let decl := getDeclination dayOfYear
  (List.range 24).map fun hour =>
    let hourAngle := getHourAngle hour
    let solarElevation := getSolarElevation latitude decl hourAngle
    { hour := hour
      outdoorTemp := getOutdoorTemp hour latitude
      solarRadiation := getSolarRadiation solarElevation
      skyTemp := getSkyTemp (getOutdoorTemp hour latitude)
      solarElevationDeg := solarElevation * 180 / Real.pi }

/-- The sample at index `i` of the generated climate sequence (used to state
closed instances of the invariants; the default is never reached for
`i < 24`). -/
def sampleAt (latitude longitude : ℝ) (i : ℕ) : HourlyClimateData :=
  ((generateHourlyClimateData latitude longitude)[i]?).getD
    { hour := 0, outdoorTemp := 0, solarRadiation := 0, skyTemp := 0,
      solarElevationDeg := 0 }

end HeatingLoadAPI

/-- The end-to-end example envelope of spec §8 (used as a concrete input for
witness instances). -/
def specEnvelope : HeatingLoad.BuildingParams :=
  { wallArea := 150, wallUValue := 0.35, roofArea := 100, roofUValue := 0.25,
    floorArea := 100, floorUValue := 0.30, windowArea := 30, windowUValue := 1.8,
    shgc := 0.6, ventilationRate := 0.5, buildingVolume := 300, indoorTemp := 20 }

/-- A concrete night-hour climate record (solar radiation 0). -/
def nightSample : HeatingLoad.ClimateData :=
  { latitude := 37.5665, longitude := 126.978, temperature := -5,
    solarRadiation := 0, timestamp := 0 }

/-- The spec-§8 envelope with a negative ventilation rate; all areas and
U-values are unchanged (non-negative). -/
def negVentEnvelope : HeatingLoad.BuildingParams :=
  { wallArea := 150, wallUValue := 0.35, roofArea := 100, roofUValue := 0.25,
    floorArea := 100, floorUValue := 0.30, windowArea := 30, windowUValue := 1.8,
    shgc := 0.6, ventilationRate := -1, buildingVolume := 300, indoorTemp := 20 }

namespace HeatingLoad

theorem foldl_max_is_ub (l : List ℝ) (a : ℝ) :
    a ≤ l.foldl max a ∧ ∀ x ∈ l, x ≤ l.foldl max a := by
  induction l generalizing a with
  | nil => simpa using le_refl a
  | cons y ys ih =>
    refine ⟨le_trans (le_max_left a y) (ih (max a y)).1, ?_⟩
    intro x hx
    rcases List.mem_cons.mp hx with rfl | hx
    · exact le_trans (le_max_right a x) (ih (max a x)).1
    · exact (ih (max a y)).2 x hx

theorem foldl_max_eq_init_or_mem (l : List ℝ) (a : ℝ) :
    l.foldl max a = a ∨ ∃ x ∈ l, l.foldl max a = x := by
  induction l generalizing a with
  | nil => exact Or.inl rfl
  | cons y ys ih =>
    rcases ih (max a y) with h | ⟨x, hx, hfx⟩
    · rcases le_total a y with hay | hya
      · exact Or.inr ⟨y, List.mem_cons_self y ys,
          by rw [List.foldl_cons, h, max_eq_right hay]⟩
      · exact Or.inl (by rw [List.foldl_cons, h, max_eq_left hya])
    · exact Or.inr ⟨x, List.mem_cons_of_mem y hx, hfx⟩

theorem hourlyResults_def (params : BuildingParams) (c : List ClimateData) :
    (runHourlySimulation params c).hourlyResults
      = c.enum.map fun x => mkHourlyResult params x.1 x.2 := rfl

theorem totalHeatingLoad_def (params : BuildingParams) (c : List ClimateData) :
    (runHourlySimulation params c).totalHeatingLoad
      = ((runHourlySimulation params c).hourlyResults.map HourlyResult.netLoad).sum / 1000 :=
  rfl

theorem averageLoad_def (params : BuildingParams) (c : List ClimateData) :
    (runHourlySimulation params c).averageLoad
      = ((runHourlySimulation params c).hourlyResults.map HourlyResult.netLoad).sum
          / (c.length : ℝ) :=
  rfl

theorem peakLoad_def (params : BuildingParams) (c : List ClimateData) :
    (runHourlySimulation params c).peakLoad
      = ((runHourlySimulation params c).hourlyResults.map HourlyResult.netLoad).foldl max 0 :=
  rfl

theorem length_hourlyResults (params : BuildingParams) (c : List ClimateData) :
    (runHourlySimulation params c).hourlyResults.length = c.length := by
  rw [hourlyResults_def, List.length_map, List.enum_length]

theorem netLoads_map_eq (params : BuildingParams) (c : List ClimateData) :
    (runHourlySimulation params c).hourlyResults.map HourlyResult.netLoad
      = c.map fun d => max 0 (steadyStateAnalysis params d).netLoad := by
  rw [hourlyResults_def, List.map_map]
  have h1 : (HourlyResult.netLoad ∘ fun x : ℕ × ClimateData => mkHourlyResult params x.1 x.2)
      = (fun d => max 0 (steadyStateAnalysis params d).netLoad) ∘ Prod.snd := rfl
  rw [h1, ← List.map_map, List.enum_map_snd]

theorem netLoad_nonneg_of_mem (params : BuildingParams) (c : List ClimateData)
    (r : HourlyResult) (hr : r ∈ (runHourlySimulation params c).hourlyResults) :
    0 ≤ r.netLoad := by
  rw [hourlyResults_def] at hr
  obtain ⟨x, _, rfl⟩ := List.mem_map.mp hr
  exact le_max_left 0 _

/-- C1: for every building-parameter record and 24-sample climate input,
`runHourlySimulation` reports totalHeatingLoad = (Σ over hours of
max(0, that hour's net load)) / 1000, averageLoad = the arithmetic mean of the
reported hourly net loads, and peakLoad = the maximum reported hourly net load
(it bounds every hour and is attained at some hour). -/
theorem runHourlySimulation_summary_stats (params : BuildingParams)
    (c : List ClimateData) (hlen : c.length = 24) :
    (runHourlySimulation params c).totalHeatingLoad
        = (c.map fun d => max 0 (steadyStateAnalysis params d).netLoad).sum / 1000
      ∧ (runHourlySimulation params c).averageLoad
        = ((runHourlySimulation params c).hourlyResults.map HourlyResult.netLoad).sum / 24
      ∧ (∀ r ∈ (runHourlySimulation params c).hourlyResults,
          r.netLoad ≤ (runHourlySimulation params c).peakLoad)
      ∧ ∃ r ∈ (runHourlySimulation params c).hourlyResults,
          (runHourlySimulation params c).peakLoad = r.netLoad := by
  refine ⟨by rw [totalHeatingLoad_def, netLoads_map_eq],
    by rw [averageLoad_def, hlen]; norm_num, ?_, ?_⟩
  · intro r hr
    rw [peakLoad_def]
    exact (foldl_max_is_ub _ 0).2 _ (List.mem_map_of_mem _ hr)
  · rcases foldl_max_eq_init_or_mem
        ((runHourlySimulation params c).hourlyResults.map HourlyResult.netLoad) 0 with
      h0 | ⟨x, hx, hfx⟩
    · have hne : (runHourlySimulation params c).hourlyResults ≠ [] := by
        intro hnil
        have hl := length_hourlyResults params c
        rw [hnil, hlen] at hl
        simp at hl
      obtain ⟨r, hr⟩ := List.exists_mem_of_ne_nil _ hne
      refine ⟨r, hr, ?_⟩
      have hub := (foldl_max_is_ub
        ((runHourlySimulation params c).hourlyResults.map HourlyResult.netLoad) 0).2
        r.netLoad (List.mem_map_of_mem _ hr)
      rw [h0] at hub
      have hnn := netLoad_nonneg_of_mem params c r hr
      rw [peakLoad_def, h0]
      linarith
    · obtain ⟨r, hr, hrx⟩ := List.mem_map.mp hx
      exact ⟨r, hr, by rw [peakLoad_def, hfx, hrx]⟩

/-- C1 witness: the summary relations instantiated at the spec-§8 envelope and
a concrete 24-sample climate input. -/
theorem runHourlySimulation_summary_stats_witness :
    (runHourlySimulation specEnvelope (List.replicate 24 nightSample)).totalHeatingLoad
        = ((List.replicate 24 nightSample).map fun d =>
            max 0 (steadyStateAnalysis specEnvelope d).netLoad).sum / 1000
      ∧ (runHourlySimulation specEnvelope (List.replicate 24 nightSample)).averageLoad
        = ((runHourlySimulation specEnvelope
            (List.replicate 24 nightSample)).hourlyResults.map HourlyResult.netLoad).sum / 24 :=
  ⟨(runHourlySimulation_summary_stats specEnvelope _ (by simp)).1,
   (runHourlySimulation_summary_stats specEnvelope _ (by simp)).2.1⟩

/-- C2: every per-hour net load reported by `runHourlySimulation` is ≥ 0: the
steady-state net load is clipped at 0 before being reported, for every
building-parameter record and every climate input. -/
theorem runHourlySimulation_netLoad_nonneg (params : BuildingParams)
    (c : List ClimateData) :
    ∀ r ∈ (runHourlySimulation params c).hourlyResults, 0 ≤ r.netLoad :=
  fun r hr => netLoad_nonneg_of_mem params c r hr

/-- C2 witness: the clipping applied to the hour-0 result of a concrete run. -/
theorem runHourlySimulation_netLoad_nonneg_witness :
    0 ≤ (mkHourlyResult specEnvelope 0 nightSample).netLoad :=
  runHourlySimulation_netLoad_nonneg specEnvelope [nightSample]
    (mkHourlyResult specEnvelope 0 nightSample) (List.mem_cons_self _ _)

/-- C5: the longwave-radiation term equals ε·σ·windowArea·((indoor + 273.15)^4
− (outdoor − 10 + 273.15)^4) with fixed ε = GROUND_EMISSIVITY = 0.9 ∈ [0, 1]
and fixed sky-temperature offset 10. -/
theorem calculateLongwaveRadiation_formula (params : BuildingParams)
    (outdoorTemp : ℝ) :
    calculateLongwaveRadiation params outdoorTemp
        = GROUND_EMISSIVITY * (5.67e-8 : ℝ) * params.windowArea *
            ((params.indoorTemp + 273.15) ^ 4 - (outdoorTemp - 10 + 273.15) ^ 4)
      ∧ (0 : ℝ) ≤ GROUND_EMISSIVITY ∧ GROUND_EMISSIVITY ≤ 1 := by
  refine ⟨?_, by norm_num [GROUND_EMISSIVITY], by norm_num [GROUND_EMISSIVITY]⟩
  show params.windowArea * GROUND_EMISSIVITY * STEFAN_BOLTZMANN *
      ((params.indoorTemp + 273.15) ^ 4 - (outdoorTemp + 273.15 - 10) ^ 4) = _
  rw [STEFAN_BOLTZMANN]
  ring

/-- C8: the steady-state net load decomposes as conductive + ventilation −
solar gain + longwave computed from the same sample, with solar gain =
windowArea × SHGC × irradiance; at a night hour (irradiance 0) the net load is
conductive + ventilation + longwave with no solar term. -/
theorem steadyStateAnalysis_netLoad_decomposition (params : BuildingParams)
    (d : ClimateData) :
    (steadyStateAnalysis params d).netLoad
        = calculateConductiveLoss params d.temperature
          + calculateVentilationLoss params d.temperature
          - calculateSolarGain params d.solarRadiation
          + calculateLongwaveRadiation params d.temperature
      ∧ (steadyStateAnalysis params d).solarGain
        = params.windowArea * params.shgc * d.solarRadiation
      ∧ (d.solarRadiation = 0 →
          (steadyStateAnalysis params d).netLoad
            = calculateConductiveLoss params d.temperature
              + calculateVentilationLoss params d.temperature
              + calculateLongwaveRadiation params d.temperature) := by
  refine ⟨rfl, rfl, fun h => ?_⟩
  show calculateConductiveLoss params d.temperature
      + calculateVentilationLoss params d.temperature
      - calculateSolarGain params d.solarRadiation
      + calculateLongwaveRadiation params d.temperature = _
  rw [h]
  simp [calculateSolarGain]

/-- C8 witness: the night-hour form at the spec-§8 envelope and a concrete
zero-irradiance sample. -/
theorem steadyStateAnalysis_netLoad_decomposition_witness :
    (steadyStateAnalysis specEnvelope nightSample).netLoad
      = calculateConductiveLoss specEnvelope nightSample.temperature
        + calculateVentilationLoss specEnvelope nightSample.temperature
        + calculateLongwaveRadiation specEnvelope nightSample.temperature :=
  (steadyStateAnalysis_netLoad_decomposition specEnvelope nightSample).2.2 rfl

theorem calculateConductiveLoss_closed (params : BuildingParams) (t : ℝ) :
    calculateConductiveLoss params t
      = (params.wallArea * params.wallUValue + params.roofArea * params.roofUValue
          + params.floorArea * params.floorUValue
          + params.windowArea * params.windowUValue) * (params.indoorTemp - t) := by
  simp only [calculateConductiveLoss]
  ring

theorem calculateVentilationLoss_closed (params : BuildingParams) (t : ℝ) :
    calculateVentilationLoss params t
      = params.ventilationRate * params.buildingVolume / 3600 * 1.2 * 1005
          * (params.indoorTemp - t) := by
  simp only [calculateVentilationLoss, AIR_DENSITY, AIR_SPECIFIC_HEAT]

/-- C9 counterexample: `negVentEnvelope` has all areas and U-values
non-negative and the outdoor temperature (0 °C) is strictly below the indoor
setpoint (20 °C), yet `calculateVentilationLoss` returns a negative value
(−2010 W): the claim as stated leaves the ventilation rate unconstrained, and
the code multiplies the (negative) rate straight into the loss. -/
theorem ventilationLoss_negative_counterexample :
    0 ≤ negVentEnvelope.wallArea ∧ 0 ≤ negVentEnvelope.wallUValue
      ∧ 0 ≤ negVentEnvelope.roofArea ∧ 0 ≤ negVentEnvelope.roofUValue
      ∧ 0 ≤ negVentEnvelope.floorArea ∧ 0 ≤ negVentEnvelope.floorUValue
      ∧ 0 ≤ negVentEnvelope.windowArea ∧ 0 ≤ negVentEnvelope.windowUValue
      ∧ (0 : ℝ) < negVentEnvelope.indoorTemp
      ∧ calculateVentilationLoss negVentEnvelope 0 < 0 := by
  norm_num [negVentEnvelope, calculateVentilationLoss_closed]

/-- C9 amended: for every building-parameter record with non-negative areas,
U-values, ventilation rate and building volume, conductive and ventilation
losses are both ≥ 0 when the outdoor temperature is strictly below the indoor
setpoint, and both ≤ 0 when the outdoor temperature exceeds it. -/
theorem conductive_ventilation_loss_sign (params : BuildingParams)
    (outdoorTemp : ℝ)
    (hwa : 0 ≤ params.wallArea) (hwu : 0 ≤ params.wallUValue)
    (hra : 0 ≤ params.roofArea) (hru : 0 ≤ params.roofUValue)
    (hfa : 0 ≤ params.floorArea) (hfu : 0 ≤ params.floorUValue)
    (hga : 0 ≤ params.windowArea) (hgu : 0 ≤ params.windowUValue)
    (hvr : 0 ≤ params.ventilationRate) (hbv : 0 ≤ params.buildingVolume) :
    (outdoorTemp < params.indoorTemp →
        0 ≤ calculateConductiveLoss params outdoorTemp
        ∧ 0 ≤ calculateVentilationLoss params outdoorTemp)
      ∧ (params.indoorTemp < outdoorTemp →
        calculateConductiveLoss params outdoorTemp ≤ 0
        ∧ calculateVentilationLoss params outdoorTemp ≤ 0) := by
  rw [calculateConductiveLoss_closed, calculateVentilationLoss_closed]
  have hS : 0 ≤ params.wallArea * params.wallUValue
      + params.roofArea * params.roofUValue + params.floorArea * params.floorUValue
      + params.windowArea * params.windowUValue :=
    add_nonneg (add_nonneg (add_nonneg (mul_nonneg hwa hwu) (mul_nonneg hra hru))
      (mul_nonneg hfa hfu)) (mul_nonneg hga hgu)
  have hV : (0 : ℝ) ≤ params.ventilationRate * params.buildingVolume / 3600 * 1.2 * 1005 :=
    mul_nonneg (mul_nonneg (div_nonneg (mul_nonneg hvr hbv) (by norm_num)) (by norm_num))
      (by norm_num)
  constructor
  · intro h
    have hΔ : 0 ≤ params.indoorTemp - outdoorTemp := by linarith
    exact ⟨mul_nonneg hS hΔ, mul_nonneg hV hΔ⟩
  · intro h
    have hΔ : params.indoorTemp - outdoorTemp ≤ 0 := by linarith
    exact ⟨mul_nonpos_iff.mpr (Or.inl ⟨hS, hΔ⟩), mul_nonpos_iff.mpr (Or.inl ⟨hV, hΔ⟩)⟩

/-- C9 witness: the non-negative direction instantiated at the spec-§8
envelope and outdoor temperature 0 °C < 20 °C. -/
theorem conductive_ventilation_loss_sign_witness :
    0 ≤ calculateConductiveLoss specEnvelope 0
      ∧ 0 ≤ calculateVentilationLoss specEnvelope 0 :=
  (conductive_ventilation_loss_sign specEnvelope 0
      (by norm_num [specEnvelope]) (by norm_num [specEnvelope])
      (by norm_num [specEnvelope]) (by norm_num [specEnvelope])
      (by norm_num [specEnvelope]) (by norm_num [specEnvelope])
      (by norm_num [specEnvelope]) (by norm_num [specEnvelope])
      (by norm_num [specEnvelope]) (by norm_num [specEnvelope])).1
    (by norm_num [specEnvelope])

/-- C10: for a 24-sample climate input, `runHourlySimulation` returns exactly
24 hourly results in order: result i has hour = i and echoes sample i's
temperature and solar radiation unchanged. -/
theorem runHourlySimulation_echoes_climate (params : BuildingParams)
    (c : List ClimateData) (hlen : c.length = 24) :
    (runHourlySimulation params c).hourlyResults.length = 24
      ∧ ∀ i, i < 24 →
        (getElem? (runHourlySimulation params c).hourlyResults i).map HourlyResult.hour
            = some i
        ∧ (getElem? (runHourlySimulation params c).hourlyResults i).map HourlyResult.outdoorTemp
            = (getElem? c i).map ClimateData.temperature
        ∧ (getElem? (runHourlySimulation params c).hourlyResults i).map HourlyResult.solarRadiation
            = (getElem? c i).map ClimateData.solarRadiation := by
  refine ⟨by rw [length_hourlyResults, hlen], fun i hi => ?_⟩
  have hic : i < c.length := by rw [hlen]; exact hi
  have hd : getElem? c i = some (c.get ⟨i, hic⟩) := by
    rw [List.getElem?_eq_getElem hic]
    rfl
  refine ⟨?_, ?_, ?_⟩ <;>
    simp [hourlyResults_def, List.getElem?_map, List.getElem?_enum, hd, mkHourlyResult]

/-- C10 witness: the echo relations at index 5 of a concrete 24-sample run. -/
theorem runHourlySimulation_echoes_climate_witness :
    (getElem? (runHourlySimulation specEnvelope
        (List.replicate 24 nightSample)).hourlyResults 5).map HourlyResult.hour = some 5
      ∧ (getElem? (runHourlySimulation specEnvelope
        (List.replicate 24 nightSample)).hourlyResults 5).map HourlyResult.outdoorTemp
          = (getElem? (List.replicate 24 nightSample) 5).map ClimateData.temperature :=
  ⟨((runHourlySimulation_echoes_climate specEnvelope _ (by simp)).2 5 (by norm_num)).1,
   ((runHourlySimulation_echoes_climate specEnvelope _ (by simp)).2 5 (by norm_num)).2.1⟩

/-- C3 counterexample: two calls of `generateHourlyClimateData` with identical
latitude, longitude and base temperature, made on different days (call-day
midnights 0 ms and 86400000 ms), return different sequences: the `timestamp`
embedded in each sample records the day the call was made. -/
theorem generateHourlyClimateData_call_time_dependent :
    generateHourlyClimateData 0 0 (-5) 0 ≠ generateHourlyClimateData 0 0 (-5) 86400000 := by
  intro h
  have h0 := congrArg (fun l => (getElem? (l.map ClimateData.timestamp) 0)) h
  simp only [generateHourlyClimateData, List.map_map, List.getElem?_map,
    List.getElem?_range] at h0
  norm_num [HOUR_MS] at h0

/-- C3 amended: `generateHourlyClimateData` is deterministic in every field
except the timestamp: for equal latitude, longitude and base temperature the
sequences returned by calls made on any two days agree on latitude, longitude,
temperature and solar radiation at every hour. -/
theorem generateHourlyClimateData_deterministic_except_timestamp
    (lat long baseTemp : ℝ) (t₁ t₂ : ℤ) :
    (generateHourlyClimateData lat long baseTemp t₁).map stripTimestamp
      = (generateHourlyClimateData lat long baseTemp t₂).map stripTimestamp := by
  simp only [generateHourlyClimateData, List.map_map]
  rfl

/-- C4 (code bug): the diurnal phase of `generateHourlyClimateData` is
inverted: for every latitude, longitude, base temperature and call day, the
generated temperature at hour 14 (mid-afternoon) is baseTemp − 3, the daily
minimum of the sinusoid, while at hour 2 (night) it is baseTemp + 3, the daily
maximum — the warmest hour is at night, not mid-afternoon. -/
theorem generateHourlyClimateData_warmest_at_night (lat long baseTemp : ℝ)
    (t : ℤ) :
    (getElem? ((generateHourlyClimateData lat long baseTemp t).map
        ClimateData.temperature) 14) = some (baseTemp - 3)
      ∧ (getElem? ((generateHourlyClimateData lat long baseTemp t).map
        ClimateData.temperature) 2) = some (baseTemp + 3) := by
  have h14 : (((14 : ℕ) : ℝ) - 14) * Real.pi / 12 = 0 := by norm_num
  have h2 : (((2 : ℕ) : ℝ) - 14) * Real.pi / 12 = -Real.pi := by
    push_cast
    ring
  constructor
  · simp [generateHourlyClimateData, List.getElem?_map, List.getElem?_range,
      tempVariationAt, h14, Real.cos_zero]
    ring
  · simp [generateHourlyClimateData, List.getElem?_map, List.getElem?_range,
      tempVariationAt]
    rw [show ((2 : ℝ) - 14) * Real.pi / 12 = -Real.pi from by ring,
      Real.cos_neg, Real.cos_pi]
    norm_num

end HeatingLoad

namespace HeatingLoadAPI

theorem getSolarRadiation_nonneg (α : ℝ) : 0 ≤ getSolarRadiation α := by
  unfold getSolarRadiation
  split
  · exact le_refl 0
  · exact le_max_left 0 _

theorem getSolarRadiation_of_nonpos {α : ℝ} (h : α ≤ 0) :
    getSolarRadiation α = 0 := by
  unfold getSolarRadiation
  rw [if_pos h]

theorem ghi_mono {s₁ s₂ : ℝ} (h₁ : 0 < s₁) (h : s₁ ≤ s₂) :
    1367 * (0.7 : ℝ) ^ ((1 / s₁) ^ (0.678 : ℝ)) * s₁
      ≤ 1367 * (0.7 : ℝ) ^ ((1 / s₂) ^ (0.678 : ℝ)) * s₂ := by
  have h₂ : 0 < s₂ := lt_of_lt_of_le h₁ h
  have hinv : 1 / s₂ ≤ 1 / s₁ := one_div_le_one_div_of_le h₁ h
  have hp : (1 / s₂) ^ (0.678 : ℝ) ≤ (1 / s₁) ^ (0.678 : ℝ) :=
    Real.rpow_le_rpow (one_div_nonneg.mpr h₂.le) hinv (by norm_num)
  have ht : (0.7 : ℝ) ^ ((1 / s₁) ^ (0.678 : ℝ))
      ≤ (0.7 : ℝ) ^ ((1 / s₂) ^ (0.678 : ℝ)) :=
    Real.rpow_le_rpow_of_exponent_ge (by norm_num) (by norm_num) hp
  exact mul_le_mul (mul_le_mul_of_nonneg_left ht (by norm_num)) h h₁.le
    (mul_pos (by norm_num) (Real.rpow_pos_of_pos (by norm_num) _)).le

theorem getSolarRadiation_mono {a b : ℝ} (ha : 0 ≤ a) (hab : a ≤ b)
    (hb : b ≤ Real.pi / 2) : getSolarRadiation a ≤ getSolarRadiation b := by
  by_cases h : a ≤ 0
  · rw [getSolarRadiation_of_nonpos h]
    exact getSolarRadiation_nonneg b
  · have ha' : 0 < a := not_le.mp h
    have hb' : 0 < b := lt_of_lt_of_le ha' hab
    unfold getSolarRadiation
    rw [if_neg (not_le.mpr ha'), if_neg (not_le.mpr hb')]
    have hbπ : b < Real.pi := lt_of_le_of_lt hb (half_lt_self Real.pi_pos)
    have hsa : 0 < Real.sin a :=
      Real.sin_pos_of_pos_of_lt_pi ha' (lt_of_le_of_lt hab hbπ)
    have hss : Real.sin a ≤ Real.sin b :=
      Real.sin_le_sin_of_le_of_le_pi_div_two (by linarith [Real.pi_pos]) hb hab
    exact max_le_max (le_refl 0) (ghi_mono hsa hss)

theorem getSolarElevation_nonneg (lat decl hourAngle : ℝ) :
    0 ≤ getSolarElevation lat decl hourAngle :=
  le_max_left 0 _

theorem getSolarElevation_le_pi_div_two (lat decl hourAngle : ℝ) :
    getSolarElevation lat decl hourAngle ≤ Real.pi / 2 := by
  unfold getSolarElevation
  exact max_le (by positivity) (Real.arcsin_le_pi_div_two _)

theorem getSolarElevation_le_noon (lat decl H : ℝ)
    (hφ : 0 ≤ Real.cos (lat * Real.pi / 180))
    (hδ : 0 ≤ Real.cos (decl * Real.pi / 180)) :
    getSolarElevation lat decl H ≤ getSolarElevation lat decl 0 := by
  simp only [getSolarElevation]
  have hc : 0 ≤ Real.cos (lat * Real.pi / 180) * Real.cos (decl * Real.pi / 180) :=
    mul_nonneg hφ hδ
  have hone := mul_le_mul_of_nonneg_left (Real.cos_le_one (H * Real.pi / 180)) hc
  have h0 : (0 : ℝ) * Real.pi / 180 = 0 := by ring
  have hle : Real.sin (lat * Real.pi / 180) * Real.sin (decl * Real.pi / 180)
        + Real.cos (lat * Real.pi / 180) * Real.cos (decl * Real.pi / 180)
          * Real.cos (H * Real.pi / 180)
      ≤ Real.sin (lat * Real.pi / 180) * Real.sin (decl * Real.pi / 180)
        + Real.cos (lat * Real.pi / 180) * Real.cos (decl * Real.pi / 180)
          * Real.cos (0 * Real.pi / 180) := by
    rw [h0, Real.cos_zero, mul_one]
    linarith
  exact max_le_max (le_refl 0) (Real.monotone_arcsin hle)

theorem declination_cos_nonneg (dayOfYear : ℕ) :
    0 ≤ Real.cos (getDeclination dayOfYear * Real.pi / 180) := by
  have hs1 := Real.neg_one_le_sin ((360 / 365 * (284 + (dayOfYear : ℝ))) * (Real.pi / 180))
  have hs2 := Real.sin_le_one ((360 / 365 * (284 + (dayOfYear : ℝ))) * (Real.pi / 180))
  have hπ := Real.pi_pos
  apply Real.cos_nonneg_of_mem_Icc
  simp only [getDeclination, Set.mem_Icc]
  constructor
  · nlinarith
  · nlinarith

theorem latitude_cos_nonneg {lat : ℝ} (h1 : -90 ≤ lat) (h2 : lat ≤ 90) :
    0 ≤ Real.cos (lat * Real.pi / 180) := by
  have hπ := Real.pi_pos
  apply Real.cos_nonneg_of_mem_Icc
  simp only [Set.mem_Icc]
  constructor
  · nlinarith
  · nlinarith

/-- C6: `getSolarRadiation` returns, for elevation above the guard threshold
(0), exactly max(0, 1367·0.7^(AM^0.678)·sin α) with air mass AM = 1/sin α;
for elevation at or below the threshold it returns exactly 0; and its value
is never negative for any real elevation input. -/
theorem getSolarRadiation_formula (α : ℝ) :
    (0 < α → getSolarRadiation α
        = max 0 (1367 * (0.7 : ℝ) ^ ((1 / Real.sin α) ^ (0.678 : ℝ)) * Real.sin α))
      ∧ (α ≤ 0 → getSolarRadiation α = 0)
      ∧ 0 ≤ getSolarRadiation α := by
  refine ⟨fun hc => ?_, fun h => getSolarRadiation_of_nonpos h,
    getSolarRadiation_nonneg α⟩
  unfold getSolarRadiation
  rw [if_neg (not_le.mpr hc)]

/-- C6 witness: the formula branch at elevation 1 rad and the guard branch at
elevation 0. -/
theorem getSolarRadiation_formula_witness :
    getSolarRadiation 1
        = max 0 (1367 * (0.7 : ℝ) ^ ((1 / Real.sin 1) ^ (0.678 : ℝ)) * Real.sin 1)
      ∧ getSolarRadiation 0 = 0 :=
  ⟨(getSolarRadiation_formula 1).1 (by norm_num),
   (getSolarRadiation_formula 0).2.1 (le_refl 0)⟩

/-- C7: in every 24-hour climate sequence generated by the fallback engine for
a valid latitude, the reported solar elevation is never negative, the solar
irradiance of a sample is exactly 0 whenever that sample's solar elevation is
≤ 0 (night), and the hourly irradiance attains its maximum at the hour-12
(local solar noon) sample. -/
theorem generateHourlyClimateData_solar_invariants (lat long : ℝ)
    (h1 : -90 ≤ lat) (h2 : lat ≤ 90) :
    (∀ s ∈ generateHourlyClimateData lat long, 0 ≤ s.solarElevationDeg)
      ∧ (∀ s ∈ generateHourlyClimateData lat long,
          s.solarElevationDeg ≤ 0 → s.solarRadiation = 0)
      ∧ ∀ s ∈ generateHourlyClimateData lat long,
          ∀ t ∈ generateHourlyClimateData lat long, t.hour = 12 →
            s.solarRadiation ≤ t.solarRadiation := by
  have hφ := latitude_cos_nonneg h1 h2
  have hδ := declination_cos_nonneg 15
  have hπ := Real.pi_pos
  refine ⟨?_, ?_, ?_⟩
  · intro s hs
    simp only [generateHourlyClimateData, List.mem_map] at hs
    obtain ⟨h, _, rfl⟩ := hs
    show 0 ≤ getSolarElevation lat (getDeclination 15) (getHourAngle h) * 180 / Real.pi
    exact div_nonneg
      (mul_nonneg (getSolarElevation_nonneg lat (getDeclination 15) (getHourAngle h))
        (by norm_num)) hπ.le
  · intro s hs hle
    simp only [generateHourlyClimateData, List.mem_map] at hs
    obtain ⟨h, _, rfl⟩ := hs
    have hdeg : getSolarElevation lat (getDeclination 15) (getHourAngle h) * 180 / Real.pi
        ≤ 0 := hle
    have hE0 : getSolarElevation lat (getDeclination 15) (getHourAngle h) ≤ 0 := by
      by_contra hcon
      push_neg at hcon
      have := div_pos (mul_pos hcon (by norm_num : (0:ℝ) < 180)) hπ
      linarith
    show getSolarRadiation (getSolarElevation lat (getDeclination 15) (getHourAngle h)) = 0
    exact getSolarRadiation_of_nonpos hE0
  · intro s hs t ht h12
    simp only [generateHourlyClimateData, List.mem_map] at hs ht
    obtain ⟨h, _, rfl⟩ := hs
    obtain ⟨k, _, rfl⟩ := ht
    have hk : k = 12 := h12
    subst hk
    show getSolarRadiation (getSolarElevation lat (getDeclination 15) (getHourAngle h))
        ≤ getSolarRadiation (getSolarElevation lat (getDeclination 15) (getHourAngle 12))
    have hHA : getHourAngle 12 = 0 := by norm_num [getHourAngle]
    refine getSolarRadiation_mono
      (getSolarElevation_nonneg lat (getDeclination 15) (getHourAngle h)) ?_
      (getSolarElevation_le_pi_div_two lat (getDeclination 15) (getHourAngle 12))
    rw [hHA]
    exact getSolarElevation_le_noon lat (getDeclination 15) (getHourAngle h) hφ hδ

theorem sampleAt_mem (lat long : ℝ) (i : ℕ) (hi : i < 24) :
    sampleAt lat long i ∈ generateHourlyClimateData lat long := by
  have hl : i < (generateHourlyClimateData lat long).length := by
    simpa [generateHourlyClimateData] using hi
  unfold sampleAt
  rw [List.getElem?_eq_getElem hl, Option.getD_some]
  exact List.getElem_mem hl

theorem sampleAt_twelve_hour : (sampleAt 0 0 12).hour = 12 := by
  simp [sampleAt, generateHourlyClimateData, List.getElem?_map, List.getElem?_range]

theorem getSolarElevation_lat0_hour0 :
    getSolarElevation 0 (getDeclination 15) (getHourAngle 0) = 0 := by
  have hδ := declination_cos_nonneg 15
  simp only [getSolarElevation, getHourAngle]
  have h0 : (0 : ℝ) * Real.pi / 180 = 0 := by ring
  have hH : (((0 : ℕ) : ℝ) - 12) * 15 * Real.pi / 180 = -Real.pi := by
    push_cast
    ring
  rw [h0, hH, Real.sin_zero, Real.cos_zero, Real.cos_neg, Real.cos_pi]
  have harc : Real.arcsin (0 * Real.sin (getDeclination 15 * Real.pi / 180)
      + 1 * Real.cos (getDeclination 15 * Real.pi / 180) * (-1)) ≤ 0 := by
    apply Real.arcsin_nonpos.mpr
    nlinarith
  exact max_eq_left harc

theorem sampleAt_zero_elevation_nonpos : (sampleAt 0 0 0).solarElevationDeg ≤ 0 := by
  have hval : (sampleAt 0 0 0).solarElevationDeg
      = getSolarElevation 0 (getDeclination 15) (getHourAngle 0) * 180 / Real.pi := by
    simp [sampleAt, generateHourlyClimateData, List.getElem?_map, List.getElem?_range,
      getHourAngle]
  rw [hval, getSolarElevation_lat0_hour0]
  simp

/-- C7 witness: the invariants at latitude 0: elevation at the hour-5 sample
is non-negative, the irradiance of the hour-0 (night) sample is 0, and the
hour-5 irradiance is at most the hour-12 irradiance. -/
theorem generateHourlyClimateData_solar_invariants_witness :
    0 ≤ (sampleAt 0 0 5).solarElevationDeg
      ∧ (sampleAt 0 0 0).solarRadiation = 0
      ∧ (sampleAt 0 0 5).solarRadiation ≤ (sampleAt 0 0 12).solarRadiation := by
  have hthm := generateHourlyClimateData_solar_invariants 0 0 (by norm_num) (by norm_num)
  have h5 := sampleAt_mem 0 0 5 (by norm_num)
  have h0 := sampleAt_mem 0 0 0 (by norm_num)
  have h12 := sampleAt_mem 0 0 12 (by norm_num)
  exact ⟨hthm.1 _ h5, hthm.2.1 _ h0 sampleAt_zero_elevation_nonpos,
    hthm.2.2 _ h5 _ h12 sampleAt_twelve_hour⟩

end HeatingLoadAPI

end
